import Mathlib

/-!
Verification of the simulation core of the `uadita-catcher` arcade game.

The TypeScript sources are shallowly embedded: JavaScript numbers are
modelled as `ℚ` (all the operations the claims exercise are exact decimal
arithmetic), integer-valued quantities as `ℤ` or `ℕ`, and the mutable
classes as explicit state-passing functions.  `Math.random()` is modelled
by passing the drawn value as an explicit argument, and the two external
effects of game-over finalization (`recordGamePlayed` and the high-score
update) are modelled by an event counter and a high-score field in the
state record.
-/

namespace Catcher

/-! ## Data model (`types/game.ts`) -/

/-- Velocity record from `types/game.ts`. -/
structure Velocity where
  vx : ℚ
  vy : ℚ
deriving DecidableEq, Repr

/-- Hitbox record (offset + size, distinct from the render size). -/
structure Hitbox where
  width : ℚ
  height : ℚ
  offsetX : ℚ
  offsetY : ℚ
deriving DecidableEq, Repr

/-- The item-kind discriminator `'good' | 'bad'`. -/
inductive ItemType where
  | good
  | bad
deriving DecidableEq, Repr

/-- The `GameStatus` union type. -/
inductive GameStatus where
  | menu
  | playing
  | paused
  | gameOver
deriving DecidableEq, Repr

/-! ## `entities/FallingObject.ts` -/

/-- Fields of `FallingObjectEntity`.  The string id `falling_<n>` produced by
`generateId()` is modelled by its counter value `ident`. -/
structure FallingObjectEntity where
  ident : ℕ
  x : ℚ
  y : ℚ
  width : ℚ
  height : ℚ
  velocity : Velocity
  type : ItemType
  points : ℤ
  spriteIndex : ℕ
  active : Bool
  isSaveable : Bool
  hitbox : Hitbox
deriving DecidableEq, Repr

/-- The `DEFAULT_WIDTH` from `entities/FallingObject.ts`. -/
def DEFAULT_WIDTH : ℚ := 40

/-- The `DEFAULT_HEIGHT` from `entities/FallingObject.ts`. -/
def DEFAULT_HEIGHT : ℚ := 40

/-- The `FallingObjectEntity` constructor: all fields at their defaults,
`active := false`, with a fresh id drawn from the `generateId` counter. -/
def freshEntity (n : ℕ) : FallingObjectEntity where
  ident := n
  x := 0
  y := 0
  width := DEFAULT_WIDTH
  height := DEFAULT_HEIGHT
  velocity := ⟨0, 0⟩
  type := .good
  points := 0
  spriteIndex := 0
  active := false
  isSaveable := false
  hitbox := ⟨DEFAULT_WIDTH, DEFAULT_HEIGHT, 0, 0⟩

/-- The `FallingObjectEntity.reset()`: restores every field to its default and
regenerates the id; `active` is managed by the pool and left untouched. -/
def resetEntity (e : FallingObjectEntity) (n : ℕ) : FallingObjectEntity where
  ident := n
  x := 0
  y := 0
  width := DEFAULT_WIDTH
  height := DEFAULT_HEIGHT
  velocity := ⟨0, 0⟩
  type := .good
  points := 0
  spriteIndex := 0
  active := e.active
  isSaveable := false
  hitbox := ⟨DEFAULT_WIDTH, DEFAULT_HEIGHT, 0, 0⟩

/-- The documented reset-default state of a falling object's fields
(the regenerated id and the pool-managed `active` flag aside). -/
def isResetDefault (e : FallingObjectEntity) : Prop :=
  e.x = 0 ∧ e.y = 0 ∧ e.width = DEFAULT_WIDTH ∧ e.height = DEFAULT_HEIGHT ∧
  e.velocity = ⟨0, 0⟩ ∧ e.type = .good ∧ e.points = 0 ∧ e.spriteIndex = 0 ∧
  e.isSaveable = false ∧ e.hitbox = ⟨DEFAULT_WIDTH, DEFAULT_HEIGHT, 0, 0⟩

instance (e : FallingObjectEntity) : Decidable (isResetDefault e) := by
  unfold isResetDefault; infer_instance

/-! ## `core/ObjectPool.ts` (instantiated at `FallingObjectEntity`) -/

/-- The `MAX_POOL_SIZE` from `core/ObjectPool.ts`. -/
def MAX_POOL_SIZE : ℕ := 200

/-- The `DEFAULT_INITIAL_SIZE` from `core/ObjectPool.ts`. -/
def DEFAULT_INITIAL_SIZE : ℕ := 50

/-- The `ObjectPool` instance state: the backing array plus the
`generateId` counter used by the entity factory and by `reset()`. -/
structure PoolState where
  pool : List FallingObjectEntity
  nextId : ℕ
deriving DecidableEq, Repr

/-- The `ObjectPool` constructor: pre-populates `initialSize` inactive
factory-made instances. -/
def mkPool (initialSize : ℕ) : PoolState where
  pool := (List.range initialSize).map fun i => freshEntity (i + 1)
  nextId := initialSize + 1

/-- The scan inside `acquire()`: find the first inactive slot, mark it
active and invoke its `reset()`. -/
def acquireScan : List FallingObjectEntity → ℕ →
    Option (FallingObjectEntity × List FallingObjectEntity)
  | [], _ => none
  | e :: rest, n =>
    if e.active then
      match acquireScan rest n with
      | none => none
      | some (a, rest') => some (a, e :: rest')
    else
      let e' := resetEntity { e with active := true } n
      some (e', e' :: rest)

/-- The `ObjectPool.acquire()`: scan for an inactive slot; failing that, grow by
one factory-made active object while below `MAX_POOL_SIZE`; otherwise
return `null` (modelled as `none`) leaving the pool unchanged. -/
def acquire (p : PoolState) : Option FallingObjectEntity × PoolState :=
  match acquireScan p.pool p.nextId with
  | some (a, pool') => (some a, { pool := pool', nextId := p.nextId + 1 })
  | none =>
    if p.pool.length < MAX_POOL_SIZE then
      let newObj := { freshEntity p.nextId with active := true }
      (some newObj, { pool := p.pool ++ [newObj], nextId := p.nextId + 1 })
    else
      (none, p)

/-- The `ObjectPool.release(obj)`: mark inactive and invoke the entity's
`reset()`.  The released object is identified by its position. -/
def release (p : PoolState) (i : ℕ) : PoolState :=
  match p.pool.get? i with
  | none => p
  | some e =>
    { pool := p.pool.set i (resetEntity { e with active := false } p.nextId)
      nextId := p.nextId + 1 }

/-- One pool operation: an `acquire()` call or a `release` of slot `i`. -/
inductive PoolOp where
  | acq
  | rel (i : ℕ)
deriving DecidableEq, Repr

/-- Apply one pool operation to the pool state. -/
def poolStep (p : PoolState) : PoolOp → PoolState
  | .acq => (acquire p).2
  | .rel i => release p i

/-- Run a sequence of pool operations. -/
def poolRun (p : PoolState) (ops : List PoolOp) : PoolState :=
  ops.foldl poolStep p

/-! ## `config/gameConfig.ts` -/

/-- The `SCORE_CONFIG.goodItem` from `config/gameConfig.ts`. -/
structure GoodItemScoreConfig where
  base : ℚ
  perfectBonus : ℚ
  saveBonus : ℚ

/-- The `SCORE_CONFIG.badItem` from `config/gameConfig.ts`. -/
structure BadItemScoreConfig where
  penalty : ℤ
  minorPenalty : ℤ
  majorPenalty : ℤ

/-- The `SCORE_CONFIG` record shape. -/
structure ScoreConfig where
  goodItem : GoodItemScoreConfig
  badItem : BadItemScoreConfig

/-- The `SCORE_CONFIG` from `config/gameConfig.ts`. -/
def SCORE_CONFIG : ScoreConfig where
  goodItem := ⟨10, 3/2, 2⟩
  badItem := ⟨-5, 50, 100⟩

/-- The `COMBO_CONFIG` record shape: the decay window and the ordered
`(count, multiplier)` threshold ladder. -/
structure ComboConfig where
  window : ℚ
  thresholds : List (ℤ × ℚ)

/-- The `COMBO_CONFIG` from `config/gameConfig.ts`. -/
def COMBO_CONFIG : ComboConfig where
  window := 2000
  thresholds := [(5, 3/2), (10, 2), (20, 3), (50, 5)]

/-- One of the three interpolated difficulty parameter vectors. -/
structure DifficultyParams where
  spawnInterval : ℚ
  fallSpeed : ℚ
  badItemRatio : ℚ

/-- The `DIFFICULTY_CONFIG` record shape. -/
structure DifficultyConfig where
  initial : DifficultyParams
  max : DifficultyParams
  scorePerLevel : ℚ
  maxLevel : ℤ

/-- The `DIFFICULTY_CONFIG` from `config/gameConfig.ts`. -/
def DIFFICULTY_CONFIG : DifficultyConfig where
  initial := ⟨1100, 280, 35/100⟩
  max := ⟨250, 700, 65/100⟩
  scorePerLevel := 80
  maxLevel := 25

/-- The `SPAWN_CONFIG` record shape (the fields the spawn decision logic uses). -/
structure SpawnConfig where
  maxItemsOnScreen : ℕ
  lanes : ℕ
  guaranteedGoodEvery : ℕ
  gracePeriodStart : ℚ
  recentLaneMemory : ℕ

/-- The `SPAWN_CONFIG` from `config/gameConfig.ts`. -/
def SPAWN_CONFIG : SpawnConfig where
  maxItemsOnScreen := 8
  lanes := 5
  guaranteedGoodEvery := 7
  gracePeriodStart := 800
  recentLaneMemory := 2

/-- The `LIVES_CONFIG` record shape. -/
structure LivesConfig where
  initial : ℤ
  max : ℤ
  invulnerabilityDuration : ℚ

/-- The `LIVES_CONFIG` from `config/gameConfig.ts`. -/
def LIVES_CONFIG : LivesConfig where
  initial := 3
  max := 3
  invulnerabilityDuration := 1500

/-! ## `systems/ComboSystem.ts` -/

/-- The `ComboState` record. -/
structure ComboState where
  count : ℤ
  multiplier : ℚ
  timer : ℚ
  maxTimer : ℚ
deriving DecidableEq, Repr

/-- The initial combo state of a fresh `ComboSystem`. -/
def initialComboState : ComboState where
  count := 0
  multiplier := 1
  timer := 0
  maxTimer := COMBO_CONFIG.window

/-- The threshold scan inside `ComboSystem.hit`: take the multiplier of the
last ladder entry whose count threshold is met. -/
def comboMultiplierUpdate (count : ℤ) (m : ℚ) : ℚ :=
  COMBO_CONFIG.thresholds.foldl
    (fun m threshold => if threshold.1 ≤ count then threshold.2 else m) m

/-- The `ComboSystem.hit(isPerfect, isSave)`: increments the count, refills the
decay timer, raises the multiplier by scanning the threshold ladder, and
returns the floored awarded points alongside the new state. -/
def comboHit (s : ComboState) (isPerfect isSave : Bool) : ComboState × ℤ :=
  let count := s.count + 1
  let multiplier := comboMultiplierUpdate count s.multiplier
  let s' : ComboState :=
    { count := count, multiplier := multiplier, timer := s.maxTimer
      maxTimer := s.maxTimer }
  let points : ℚ := SCORE_CONFIG.goodItem.base
  let points := if isPerfect then points * SCORE_CONFIG.goodItem.perfectBonus else points
  let points := if isSave then points * SCORE_CONFIG.goodItem.saveBonus else points
  (s', Int.floor (points * multiplier))

/-- The `ComboSystem.miss()`: count to 0, multiplier to 1, timer to 0. -/
def comboMiss (s : ComboState) : ComboState :=
  { s with count := 0, multiplier := 1, timer := 0 }

/-- The `ComboSystem.update(dt)`: decrement the timer by `dt * 1000`; if it
reaches 0, zero it and invoke `miss()`. -/
def comboUpdate (s : ComboState) (dt : ℚ) : ComboState :=
  if 0 < s.timer then
    let timer := s.timer - dt * 1000
    if timer ≤ 0 then comboMiss { s with timer := 0 }
    else { s with timer := timer }
  else s

/-- The `ComboSystem.reset()`: back to the initial state. -/
def comboReset (_ : ComboState) : ComboState := initialComboState

/-- The `timerPercent` accessor: `max 0 (timer / maxTimer)`, with a 0
fallback for a zero ceiling. -/
def timerPercent (s : ComboState) : ℚ :=
  if s.maxTimer = 0 then 0 else max 0 (s.timer / s.maxTimer)

/-- Run `n` consecutive `hit(false, false)` calls, collecting the returned
scores in order. -/
def comboHitRun (s : ComboState) : ℕ → ComboState × List ℤ
  | 0 => (s, [])
  | n + 1 =>
    let (s', scores) := comboHitRun s n
    let (s'', p) := comboHit s' false false
    (s'', scores ++ [p])

/-- One public `ComboSystem` operation. -/
inductive ComboOp where
  | hit (isPerfect isSave : Bool)
  | miss
  | reset
  | update (dt : ℚ)

/-- Apply one `ComboSystem` operation (discarding `hit`'s returned score). -/
def comboApply (s : ComboState) : ComboOp → ComboState
  | .hit isPerfect isSave => (comboHit s isPerfect isSave).1
  | .miss => comboMiss s
  | .reset => comboReset s
  | .update dt => comboUpdate s dt

/-- Run a sequence of `ComboSystem` operations from the initial state. -/
def comboRun (ops : List ComboOp) : ComboState :=
  ops.foldl comboApply initialComboState

/-- An operation is valid when any `update` receives a non-negative `dt`. -/
def comboOpValid : ComboOp → Prop
  | .update dt => 0 ≤ dt
  | _ => True

/-- The `ComboSystem` state invariant of the claim: non-negative count,
multiplier at least 1, timer within `[0, maxTimer]`, and the ceiling pinned
at the configured combo window. -/
def comboInv (s : ComboState) : Prop :=
  0 ≤ s.count ∧ 1 ≤ s.multiplier ∧ 0 ≤ s.timer ∧ s.timer ≤ s.maxTimer ∧
  s.maxTimer = COMBO_CONFIG.window

instance (s : ComboState) : Decidable (comboInv s) := by
  unfold comboInv; infer_instance

/-! ## `systems/LivesSystem.ts` and the `Game.update` tick fragment -/

/-- The slice of the authoritative `GameState` record that the lives /
scoring / finalization logic touches, together with the combo system the
tick consults and two instrumentation fields for the game-over
finalization effects: `recordedGames` counts `recordGamePlayed` calls and
`highScore` mirrors the high-score comparison/update. -/
structure GState where
  score : ℤ
  lives : ℤ
  isInvulnerable : Bool
  invulnerabilityTimer : ℚ
  status : GameStatus
  highScore : ℤ
  combo : ComboState
  recordedGames : ℕ
deriving DecidableEq, Repr

/-- The `loseLife` from `systems/LivesSystem.ts`: no-op while invulnerable;
otherwise decrement lives, start the invulnerability window, and switch to
`'gameOver'` when the decremented lives reach 0. -/
def loseLife (s : GState) : GState :=
  if s.isInvulnerable then s
  else
    let newLives := s.lives - 1
    { s with
      lives := newLives
      isInvulnerable := true
      invulnerabilityTimer := LIVES_CONFIG.invulnerabilityDuration
      status := if newLives ≤ 0 then .gameOver else s.status }

/-- The `updateScore` from `systems/ScoreSystem.ts`, acting on the score field:
`Math.max(0, score + points)`. -/
def updateScore (score : ℤ) (points : ℤ) : ℤ :=
  max 0 (score + points)

/-- The game-over finalization block of `Game.update`: stop the loop,
perform the high-score comparison/update, and call `recordGamePlayed`. -/
def finalizeGameOver (s : GState) : GState :=
  let isNewHighScore := s.highScore < s.score
  { s with
    highScore := if isNewHighScore then s.score else s.highScore
    recordedGames := s.recordedGames + 1 }

/-- The collision classification `'normal' | 'perfect'`. -/
inductive CollisionType where
  | normal
  | perfect
deriving DecidableEq, Repr

/-- A detected collision between the player and a falling object. -/
structure DetectedCollision where
  object : FallingObjectEntity
  type : CollisionType
deriving DecidableEq, Repr

/-- The collision-processing loop of `Game.update` (lines 296-407): good
catches award combo-multiplied points; bad catches apply the minor fixed
penalty or the full-score forfeiture, reset the combo, and (unless
invulnerable) lose a life — and when that life loss ends the game, the
finalization block runs and the loop returns early, skipping the remaining
collisions of the tick. -/
def processCollisions : GState → List DetectedCollision → GState
  | s, [] => s
  | s, c :: rest =>
    let obj := c.object
    if obj.type = .good then
      let isPerfect := c.type = CollisionType.perfect
      let isSave := obj.isSaveable
      let (combo', points) := comboHit s.combo isPerfect isSave
      processCollisions { s with score := s.score + points, combo := combo' } rest
    else
      let isMajorBad := 2 ≤ obj.spriteIndex
      let penalty : ℤ := if isMajorBad then s.score else SCORE_CONFIG.badItem.minorPenalty
      let s₁ := { s with score := max 0 (s.score - penalty), combo := comboMiss s.combo }
      if s₁.isInvulnerable then
        processCollisions s₁ rest
      else
        let s₂ := loseLife s₁
        if s₂.status = .gameOver then
          finalizeGameOver s₂
        else
          processCollisions s₂ rest

/-- One score-affecting operation of a play session: a good catch processed
through `ComboSystem.hit`, a bad catch with its tiered penalty, or an
`updateScore` call with an arbitrary (possibly negative) delta. -/
inductive ScoreOp where
  | goodHit (isPerfect isSave : Bool)
  | badCatch (spriteIndex : ℕ)
  | updateScoreBy (delta : ℤ)

/-- The score-and-combo slice of the game state. -/
structure ScoreState where
  score : ℤ
  combo : ComboState

/-- Apply one score-affecting operation, mirroring the corresponding
mutations in `Game.update` and `ScoreSystem.updateScore`. -/
def scoreApply (st : ScoreState) : ScoreOp → ScoreState
  | .goodHit isPerfect isSave =>
    let (combo', points) := comboHit st.combo isPerfect isSave
    { score := st.score + points, combo := combo' }
  | .badCatch spriteIndex =>
    let isMajorBad := 2 ≤ spriteIndex
    let penalty : ℤ := if isMajorBad then st.score else SCORE_CONFIG.badItem.minorPenalty
    { score := max 0 (st.score - penalty), combo := comboMiss st.combo }
  | .updateScoreBy delta =>
    { st with score := updateScore st.score delta }

/-- Run a sequence of score-affecting operations from a fresh session
(score 0, fresh combo system). -/
def scoreRun (ops : List ScoreOp) : ScoreState :=
  ops.foldl scoreApply ⟨0, initialComboState⟩

/-! ## `core/CollisionSystem.ts` -/

/-- The `CATCH_ZONE_PADDING` (pixels). -/
def CATCH_ZONE_PADDING : ℚ := 10

/-- The `PERFECT_ZONE_SIZE` (fraction of the player hitbox). -/
def PERFECT_ZONE_SIZE : ℚ := 1/2

/-- The `NEUTRAL_ZONE_HEIGHT` (pixels from the bottom of the screen). -/
def NEUTRAL_ZONE_HEIGHT : ℚ := 50

/-- Axis-aligned bounding box. -/
structure AABB where
  x : ℚ
  y : ℚ
  width : ℚ
  height : ℚ
deriving DecidableEq, Repr

/-- The fields of the `Player` entity that the collision geometry reads. -/
structure Player where
  x : ℚ
  y : ℚ
  width : ℚ
  height : ℚ
  hitbox : Hitbox
deriving DecidableEq, Repr

/-- The `checkAABBCollision`: two boxes collide iff both axis intervals overlap
strictly. -/
def checkAABBCollision (a b : AABB) : Prop :=
  a.x < b.x + b.width ∧ a.x + a.width > b.x ∧
  a.y < b.y + b.height ∧ a.y + a.height > b.y

instance (a b : AABB) : Decidable (checkAABBCollision a b) := by
  unfold checkAABBCollision; infer_instance

/-- The `getPlayerHitbox`: the player's actual hitbox AABB. -/
def getPlayerHitbox (player : Player) : AABB where
  x := player.x + player.hitbox.offsetX
  y := player.y + player.hitbox.offsetY
  width := player.hitbox.width
  height := player.hitbox.height

/-- The `getCatchZone`: the hitbox padded by `CATCH_ZONE_PADDING` on all sides. -/
def getCatchZone (player : Player) : AABB :=
  let hitbox := getPlayerHitbox player
  { x := hitbox.x - CATCH_ZONE_PADDING
    y := hitbox.y - CATCH_ZONE_PADDING
    width := hitbox.width + CATCH_ZONE_PADDING * 2
    height := hitbox.height + CATCH_ZONE_PADDING * 2 }

/-- The `getPerfectZone`: the centered sub-zone sized `PERFECT_ZONE_SIZE` of the
hitbox. -/
def getPerfectZone (player : Player) : AABB :=
  let hitbox := getPlayerHitbox player
  let perfectWidth := hitbox.width * PERFECT_ZONE_SIZE
  let perfectHeight := hitbox.height * PERFECT_ZONE_SIZE
  let offsetX := (hitbox.width - perfectWidth) / 2
  let offsetY := (hitbox.height - perfectHeight) / 2
  { x := hitbox.x + offsetX
    y := hitbox.y + offsetY
    width := perfectWidth
    height := perfectHeight }

/-- The neutral-zone start of `checkCollisions`:
`canvasHeight ? canvasHeight - NEUTRAL_ZONE_HEIGHT : Infinity`.  A missing
or zero (falsy) canvas height yields `Infinity`, modelled as `none`; the
later `>` comparison against `Infinity` is then always false. -/
def neutralZoneStart : Option ℚ → Option ℚ
  | some h => if h = 0 then none else some (h - NEUTRAL_ZONE_HEIGHT)
  | none => none

/-- The neutral-zone skip test `obj.y + obj.height > neutralZoneStart`
(false against `Infinity`). -/
def inNeutralZone (nzs : Option ℚ) (obj : FallingObjectEntity) : Prop :=
  match nzs with
  | some s => obj.y + obj.height > s
  | none => False

instance (nzs : Option ℚ) (obj : FallingObjectEntity) :
    Decidable (inNeutralZone nzs obj) := by
  unfold inNeutralZone
  match nzs with
  | some s => infer_instance
  | none => infer_instance

/-- The `checkCollisions(player, objects, canvasHeight)`: skip inactive objects
and objects whose visual box extends into the neutral zone; report each
remaining object whose hitbox AABB overlaps the catch zone, classified
`'perfect'` when it also overlaps the perfect zone. -/
def checkCollisions (player : Player) (objects : List FallingObjectEntity)
    (canvasHeight : Option ℚ) : List DetectedCollision :=
  let catchZone := getCatchZone player
  let perfectZone := getPerfectZone player
  let nzs := neutralZoneStart canvasHeight
  objects.filterMap fun obj =>
    if obj.active = false then none
    else if inNeutralZone nzs obj then none
    else
      let objectBox : AABB :=
        { x := obj.x + obj.hitbox.offsetX
          y := obj.y + obj.hitbox.offsetY
          width := obj.hitbox.width
          height := obj.hitbox.height }
      if checkAABBCollision catchZone objectBox then
        some { object := obj
               type := if checkAABBCollision perfectZone objectBox then .perfect else .normal }
      else none

/-! ## `core/SpawnSystem.ts` item-kind decision -/

/-- The `SpawnSystem.determineItemType(difficulty)`.  The `Math.random()` draw
of the weighted coin flip is the explicit argument `r ∈ [0,1)`;
`elapsedTime` and `spawnsSinceGood` are the instance fields read by the
method. -/
def determineItemType (elapsedTime : ℚ) (spawnsSinceGood : ℕ)
    (badItemRatio : ℚ) (r : ℚ) : ItemType :=
  if elapsedTime < SPAWN_CONFIG.gracePeriodStart then .good
  else if SPAWN_CONFIG.guaranteedGoodEvery ≤ spawnsSinceGood then .good
  else if r < badItemRatio then .bad
  else .good

/-- The inputs of one spawn that reaches the item-kind decision: the
elapsed time, the difficulty's bad-item ratio, and the random draw. -/
structure SpawnInput where
  elapsedTime : ℚ
  badItemRatio : ℚ
  r : ℚ

/-- The `spawnsSinceGood` counter update in `SpawnSystem.spawn`: reset to 0
on a good item, incremented on a bad one. -/
def stepSpawnCounter (c : ℕ) (t : ItemType) : ℕ :=
  match t with
  | .good => 0
  | .bad => c + 1

/-- The item kinds produced by successive spawns, threading the
`spawnsSinceGood` counter exactly as `SpawnSystem.spawn` does. -/
def spawnTypes (c : ℕ) : List SpawnInput → List ItemType
  | [] => []
  | i :: rest =>
    let t := determineItemType i.elapsedTime c i.badItemRatio i.r
    t :: spawnTypes (stepSpawnCounter c t) rest

/-- The `spawnsSinceGood` counter value after a sequence of spawns. -/
def spawnCounterAfter (c : ℕ) : List SpawnInput → ℕ
  | [] => c
  | i :: rest =>
    spawnCounterAfter
      (stepSpawnCounter c (determineItemType i.elapsedTime c i.badItemRatio i.r)) rest

/-! ## `systems/DifficultySystem.ts` -/

/-- The `DifficultyState` record. -/
structure DifficultyState where
  level : ℤ
  spawnInterval : ℚ
  fallSpeed : ℚ
  badItemRatio : ℚ
deriving DecidableEq, Repr

/-- The `lerp(min, max, t)`. -/
def lerp (lo hi t : ℚ) : ℚ := lo + (hi - lo) * t

/-- The `difficultyEasing(t) = t * (0.5 + 0.5 * t)` — the blended
linear/quadratic curve of the current `DifficultySystem.ts` revision. -/
def difficultyEasing (t : ℚ) : ℚ := t * (1/2 + 1/2 * t)

/-- The `logarithmicEasing(t) = Math.log(1 + t * (Math.E - 1))` — the easing
curve of the earlier `DifficultySystem.ts` revision, over the reals. -/
noncomputable def logarithmicEasing (t : ℝ) : ℝ :=
  Real.log (1 + t * (Real.exp 1 - 1))

/-- The `level` computation of `calculateDifficulty`:
`Math.min(Math.floor(score / scorePerLevel), maxLevel)`. -/
def levelOf (score : ℚ) : ℤ :=
  min (Int.floor (score / DIFFICULTY_CONFIG.scorePerLevel)) DIFFICULTY_CONFIG.maxLevel

/-- The `easedProgress` computation of `calculateDifficulty`: the easing
applied to the linear progress `level / maxLevel`. -/
def easedOf (score : ℚ) : ℚ :=
  difficultyEasing ((levelOf score : ℚ) / (DIFFICULTY_CONFIG.maxLevel : ℚ))

/-- The `calculateDifficulty(score)`: clamp `floor(score / scorePerLevel)` to
`maxLevel`, ease the linear progress `level / maxLevel`, and interpolate
each parameter from its initial to its maximum configured value. -/
def calculateDifficulty (score : ℚ) : DifficultyState :=
  let level := levelOf score
  let easedProgress := easedOf score
  { level := level
    spawnInterval :=
      lerp DIFFICULTY_CONFIG.initial.spawnInterval DIFFICULTY_CONFIG.max.spawnInterval easedProgress
    fallSpeed :=
      lerp DIFFICULTY_CONFIG.initial.fallSpeed DIFFICULTY_CONFIG.max.fallSpeed easedProgress
    badItemRatio :=
      lerp DIFFICULTY_CONFIG.initial.badItemRatio DIFFICULTY_CONFIG.max.badItemRatio easedProgress }

/-! ## Helper lemmas: object pool -/

/-- A successful `acquire` scan hands out an object that is active and in
the reset-default state. -/
lemma acquireScan_resetDefault :
    ∀ (l : List FallingObjectEntity) (n : ℕ) (a : FallingObjectEntity)
      (l' : List FallingObjectEntity), acquireScan l n = some (a, l') →
      a.active = true ∧ isResetDefault a := by
  intro l
  induction l with
  | nil => intro n a l' h; exact absurd h (by simp [acquireScan])
  | cons e rest ih =>
    intro n a l' h
    rw [acquireScan] at h
    by_cases he : e.active = true
    · rw [if_pos he] at h
      cases hs : acquireScan rest n with
      | none => rw [hs] at h; cases h
      | some pr =>
        obtain ⟨a', rest'⟩ := pr
        rw [hs] at h
        simp only [Option.some.injEq, Prod.mk.injEq] at h
        obtain ⟨h1, -⟩ := h
        rw [h1] at hs
        exact ih n a rest' hs
    · rw [if_neg he] at h
      simp only [Option.some.injEq, Prod.mk.injEq] at h
      obtain ⟨h1, -⟩ := h
      exact h1 ▸ ⟨rfl, rfl, rfl, rfl, rfl, rfl, rfl, rfl, rfl, rfl, rfl⟩

/-- The scan leaves the pool length unchanged. -/
lemma acquireScan_length :
    ∀ (l : List FallingObjectEntity) (n : ℕ) (a : FallingObjectEntity)
      (l' : List FallingObjectEntity), acquireScan l n = some (a, l') →
      l'.length = l.length := by
  intro l
  induction l with
  | nil => intro n a l' h; exact absurd h (by simp [acquireScan])
  | cons e rest ih =>
    intro n a l' h
    rw [acquireScan] at h
    by_cases he : e.active = true
    · rw [if_pos he] at h
      cases hs : acquireScan rest n with
      | none => rw [hs] at h; cases h
      | some pr =>
        obtain ⟨a', rest'⟩ := pr
        rw [hs] at h
        simp only [Option.some.injEq, Prod.mk.injEq] at h
        obtain ⟨-, h2⟩ := h
        rw [← h2, List.length_cons, List.length_cons, ih n a' rest' hs]
    · rw [if_neg he] at h
      simp only [Option.some.injEq, Prod.mk.injEq] at h
      obtain ⟨-, h2⟩ := h
      rw [← h2, List.length_cons, List.length_cons]

/-- When every slot is active the scan finds nothing. -/
lemma acquireScan_all_active {l : List FallingObjectEntity} {n : ℕ}
    (h : ∀ e ∈ l, e.active = true) : acquireScan l n = none := by
  induction l with
  | nil => rfl
  | cons e rest ih =>
    rw [acquireScan]
    have he : e.active = true := h e (by simp)
    simp only [he, if_true, ih fun e' he' => h e' (by simp [he'])]

/-- The `acquire` never shrinks the pool and grows it by at most one, only
while strictly below the hard maximum. -/
lemma acquire_length (p : PoolState) :
    (acquire p).2.pool.length ≤ max p.pool.length MAX_POOL_SIZE := by
  unfold acquire
  cases hs : acquireScan p.pool p.nextId with
  | some pr =>
    obtain ⟨a, pool'⟩ := pr
    simpa [acquireScan_length p.pool p.nextId a pool' hs] using
      le_max_left p.pool.length MAX_POOL_SIZE
  | none =>
    by_cases hlen : p.pool.length < MAX_POOL_SIZE
    · simp only [hlen, if_true, List.length_append, List.length_cons, List.length_nil]
      omega
    · rw [if_neg hlen]
      exact le_max_left p.pool.length MAX_POOL_SIZE

/-- The `release` preserves the pool length. -/
lemma release_length (p : PoolState) (i : ℕ) :
    (release p i).pool.length = p.pool.length := by
  unfold release
  cases h : p.pool.get? i with
  | none => rfl
  | some e => simp

/-! ## Claims C1 and C8: the object pool -/

/-- Claim C1: every object returned by `ObjectPool.acquire` is active and
has all its fields in the documented reset-default state at the moment of
return, on the scan path and on the factory growth path alike. -/
theorem C1_acquire_returns_reset_defaults (p : PoolState)
    (e : FallingObjectEntity) (p' : PoolState)
    (h : acquire p = (some e, p')) : e.active = true ∧ isResetDefault e := by
  unfold acquire at h
  cases hs : acquireScan p.pool p.nextId with
  | some pr =>
    obtain ⟨a, pool'⟩ := pr
    rw [hs] at h
    simp only [Prod.mk.injEq, Option.some.injEq] at h
    obtain ⟨ha, -⟩ := h
    exact ha ▸ acquireScan_resetDefault p.pool p.nextId a pool' hs
  | none =>
    rw [hs] at h
    by_cases hlen : p.pool.length < MAX_POOL_SIZE
    · simp only [hlen, if_true, Prod.mk.injEq, Option.some.injEq] at h
      obtain ⟨ha, -⟩ := h
      subst ha
      exact ⟨rfl, rfl, rfl, rfl, rfl, rfl, rfl, rfl, rfl, rfl, rfl⟩
    · simp [hlen] at h

/-- Witness for C1 at a concrete one-slot pool. -/
theorem C1_witness :
    acquire (mkPool 1) =
      (some (resetEntity { freshEntity 1 with active := true } 2),
        ({ pool := [resetEntity { freshEntity 1 with active := true } 2],
           nextId := 3 } : PoolState)) ∧
    (resetEntity { freshEntity 1 with active := true } 2).active = true ∧
    isResetDefault (resetEntity { freshEntity 1 with active := true } 2) := by
  have h : acquire (mkPool 1) =
      (some (resetEntity { freshEntity 1 with active := true } 2),
        ({ pool := [resetEntity { freshEntity 1 with active := true } 2],
           nextId := 3 } : PoolState)) := by decide
  exact ⟨h, C1_acquire_returns_reset_defaults _ _ _ h⟩

/-- Claim C8: a pool at the hard maximum with every slot active yields
`null` from `acquire()` without growing; and starting at or below the hard
maximum, no sequence of `acquire`/`release` operations ever pushes the pool
size above `MAX_POOL_SIZE`. -/
theorem C8_pool_hard_maximum :
    (∀ p : PoolState, p.pool.length = MAX_POOL_SIZE →
      (∀ e ∈ p.pool, e.active = true) → acquire p = (none, p)) ∧
    (∀ (p : PoolState) (ops : List PoolOp), p.pool.length ≤ MAX_POOL_SIZE →
      (poolRun p ops).pool.length ≤ MAX_POOL_SIZE) := by
  constructor
  · intro p hlen hact
    unfold acquire
    rw [acquireScan_all_active hact]
    simp [hlen]
  · intro p ops
    induction ops generalizing p with
    | nil => exact fun h => h
    | cons op rest ih =>
      intro h
      rw [poolRun, List.foldl_cons]
      apply ih
      cases op with
      | acq =>
        have := acquire_length p
        simp only [poolStep]
        omega
      | rel i => simpa [poolStep, release_length] using h

/-- Witness for C8: a concrete full all-active pool refuses to grow, and a
concrete 50-slot pool stays within bounds under an `acquire`. -/
theorem C8_witness :
    acquire ⟨List.replicate 200 { freshEntity 1 with active := true }, 1⟩ =
      (none, ⟨List.replicate 200 { freshEntity 1 with active := true }, 1⟩) ∧
    (poolRun (mkPool 50) [PoolOp.acq]).pool.length ≤ MAX_POOL_SIZE := by
  constructor
  · exact C8_pool_hard_maximum.1 _ (List.length_replicate 200 _)
      (fun e he => (List.eq_of_mem_replicate he) ▸ rfl)
  · exact C8_pool_hard_maximum.2 (mkPool 50) [PoolOp.acq]
      (by simp only [mkPool, List.length_map, List.length_range]; decide)

/-! ## Claim C5: combo Scenario A -/

/-- Claim C5: from a fresh combo state, five `hit(false, false)` calls with
no decay timeout leave count 5 and multiplier 3/2 (the 5-count threshold),
and return 10, 10, 10, 10, 15 points — each hit scored with the multiplier
active at that hit. -/
theorem C5_combo_scenario_a :
    (comboHitRun initialComboState 5).2 = [10, 10, 10, 10, 15] ∧
    (comboHitRun initialComboState 5).1.count = 5 ∧
    (comboHitRun initialComboState 5).1.multiplier = 3/2 := by
  norm_num [comboHitRun, comboHit, comboMultiplierUpdate, initialComboState,
    COMBO_CONFIG, SCORE_CONFIG]

/-! ## Helper lemmas: combo system -/

/-- The threshold scan never drops the multiplier below 1. -/
lemma comboMultiplierUpdate_ge_one (count : ℤ) (m : ℚ) (h : 1 ≤ m) :
    1 ≤ comboMultiplierUpdate count m := by
  simp only [comboMultiplierUpdate, COMBO_CONFIG, List.foldl_cons, List.foldl_nil]
  split_ifs <;> first | exact h | norm_num

/-- The state component of `comboHit`, spelled out. -/
lemma comboHit_fst (s : ComboState) (isPerfect isSave : Bool) :
    (comboHit s isPerfect isSave).1 =
      ⟨s.count + 1, comboMultiplierUpdate (s.count + 1) s.multiplier,
        s.maxTimer, s.maxTimer⟩ := rfl

/-- With a multiplier at least 1, `comboHit` awards a non-negative floored
score. -/
lemma comboHit_points_nonneg (s : ComboState) (isPerfect isSave : Bool)
    (h : 1 ≤ s.multiplier) : 0 ≤ (comboHit s isPerfect isSave).2 := by
  have hm : 1 ≤ comboMultiplierUpdate (s.count + 1) s.multiplier :=
    comboMultiplierUpdate_ge_one _ _ h
  show 0 ≤ Int.floor _
  rw [Int.floor_nonneg]
  have hm0 : (0:ℚ) ≤ comboMultiplierUpdate (s.count + 1) s.multiplier :=
    le_trans zero_le_one hm
  cases isPerfect <;> cases isSave <;> simp [SCORE_CONFIG] <;> positivity

/-- The fresh combo state satisfies the invariant. -/
lemma initialComboState_inv : comboInv initialComboState := by
  simp only [comboInv, initialComboState]
  norm_num [COMBO_CONFIG]

/-- One valid combo operation preserves the combo-state invariant. -/
lemma comboApply_inv (s : ComboState) (o : ComboOp) (hv : comboOpValid o)
    (h : comboInv s) : comboInv (comboApply s o) := by
  obtain ⟨h1, h2, h3, h4, h5⟩ := h
  have hmax0 : 0 ≤ s.maxTimer := le_trans h3 h4
  cases o with
  | hit isPerfect isSave =>
    simp only [comboApply, comboHit_fst, comboInv]
    exact ⟨by omega, comboMultiplierUpdate_ge_one _ _ h2, hmax0, le_refl _, h5⟩
  | miss =>
    simp only [comboApply, comboMiss, comboInv]
    exact ⟨le_refl _, le_refl _, le_refl _, hmax0, h5⟩
  | reset =>
    exact initialComboState_inv
  | update dt =>
    simp only [comboApply, comboUpdate]
    have hv' : (0:ℚ) ≤ dt := hv
    by_cases ht : 0 < s.timer
    · rw [if_pos ht]
      by_cases hz : s.timer - dt * 1000 ≤ 0
      · rw [if_pos hz]
        simp only [comboMiss, comboInv]
        exact ⟨le_refl _, le_refl _, le_refl _, hmax0, h5⟩
      · rw [if_neg hz]
        simp only [comboInv]
        refine ⟨h1, h2, by linarith, by linarith, h5⟩
    · rw [if_neg ht]
      exact ⟨h1, h2, h3, h4, h5⟩

/-- The combo-state invariant holds along any valid run from any invariant
state. -/
lemma comboFoldl_inv (ops : List ComboOp) :
    ∀ s : ComboState, comboInv s → (∀ o ∈ ops, comboOpValid o) →
      comboInv (ops.foldl comboApply s) := by
  induction ops with
  | nil => intro s h _; exact h
  | cons o rest ih =>
    intro s h hv
    rw [List.foldl_cons]
    exact ih _ (comboApply_inv s o (hv o (by simp)) h)
      fun o' ho' => hv o' (by simp [ho'])

/-! ## Claim C10: combo-state invariant -/

/-- Claim C10: every `ComboSystem` state reachable from the initial state
by `hit`/`miss`/`reset`/`update(dt ≥ 0)` calls has non-negative count,
multiplier at least 1, timer within `[0, maxTimer]`, and `maxTimer` pinned
at the configured combo window; hence `timerPercent` always lies in
`[0, 1]`. -/
theorem C10_combo_invariant (ops : List ComboOp)
    (hv : ∀ o ∈ ops, comboOpValid o) :
    comboInv (comboRun ops) ∧
    0 ≤ timerPercent (comboRun ops) ∧ timerPercent (comboRun ops) ≤ 1 := by
  have hinv : comboInv (comboRun ops) :=
    comboFoldl_inv ops initialComboState initialComboState_inv hv
  refine ⟨hinv, ?_, ?_⟩
  · unfold timerPercent
    split_ifs
    · exact le_refl 0
    · exact le_max_left 0 _
  · obtain ⟨-, -, h3, h4, h5⟩ := hinv
    unfold timerPercent
    split_ifs with hz
    · exact zero_le_one
    · have hmaxpos : 0 < (comboRun ops).maxTimer := by
        rw [h5]; norm_num [COMBO_CONFIG]
      rw [max_le_iff]
      exact ⟨zero_le_one, (div_le_one hmaxpos).mpr h4⟩

/-- Witness for C10 on a concrete valid operation sequence. -/
theorem C10_witness :
    comboInv (comboRun [ComboOp.hit true false, ComboOp.update 1]) :=
  (C10_combo_invariant [ComboOp.hit true false, ComboOp.update 1]
    (by
      intro o ho
      rw [List.mem_cons, List.mem_singleton] at ho
      rcases ho with h | h <;> subst h
      · trivial
      · exact zero_le_one)).1

/-! ## Claim C2: the score is never negative -/

/-- One score-affecting operation preserves non-negativity of the score and
the multiplier lower bound it relies on. -/
lemma scoreApply_inv (st : ScoreState) (o : ScoreOp)
    (h : 0 ≤ st.score ∧ 1 ≤ st.combo.multiplier) :
    0 ≤ (scoreApply st o).score ∧ 1 ≤ (scoreApply st o).combo.multiplier := by
  obtain ⟨h1, h2⟩ := h
  cases o with
  | goodHit isPerfect isSave =>
    constructor
    · have := comboHit_points_nonneg st.combo isPerfect isSave h2
      simp only [scoreApply]
      omega
    · simp only [scoreApply, comboHit_fst]
      exact comboMultiplierUpdate_ge_one _ _ h2
  | badCatch spriteIndex =>
    exact ⟨le_max_left 0 _, le_refl 1⟩
  | updateScoreBy delta =>
    exact ⟨le_max_left 0 _, h2⟩

/-- Claim C2: starting from a fresh session, any sequence of good-catch
score awards, bad-item penalties (minor fixed subtraction or full-score
forfeiture) and `updateScore` calls with arbitrary possibly-negative
deltas leaves the cumulative score non-negative. -/
theorem C2_score_nonneg (ops : List ScoreOp) : 0 ≤ (scoreRun ops).score := by
  suffices h : ∀ st : ScoreState, 0 ≤ st.score → 1 ≤ st.combo.multiplier →
      0 ≤ (ops.foldl scoreApply st).score ∧
      1 ≤ (ops.foldl scoreApply st).combo.multiplier by
    exact (h ⟨0, initialComboState⟩ (le_refl 0) (le_refl 1)).1
  induction ops with
  | nil => intro st a b; exact ⟨a, b⟩
  | cons o rest ih =>
    intro st a b
    rw [List.foldl_cons]
    have := scoreApply_inv st o ⟨a, b⟩
    exact ih _ this.1 this.2

/-! ## Claim C3: Scenario B — game over finalized exactly once -/

/-- Processing a good-item collision changes only the score and the combo
state. -/
lemma processCollisions_good_step (s : GState) (c : DetectedCollision)
    (rest : List DetectedCollision) (hc : c.object.type = .good) :
    processCollisions s (c :: rest) =
      processCollisions
        { s with
          score := s.score + (comboHit s.combo (c.type = CollisionType.perfect) c.object.isSaveable).2
          combo := (comboHit s.combo (c.type = CollisionType.perfect) c.object.isSaveable).1 }
        rest := by
  rw [processCollisions, if_pos hc]

/-- Claim C3: with one life left and the player vulnerable, processing a
tick's collision batch whose first harmful contact follows any number of
good catches drops lives to 0, transitions to `'gameOver'`, and performs
the session finalization (the `recordGamePlayed` call and high-score
comparison) exactly once — the remaining collisions of the batch are
never processed because the loop returns early. -/
theorem C3_game_over_finalized_once (s : GState) (goods : List DetectedCollision)
    (c : DetectedCollision) (rest : List DetectedCollision)
    (hg : ∀ g ∈ goods, g.object.type = .good) (hc : c.object.type = .bad)
    (hl : s.lives = 1) (hi : s.isInvulnerable = false) (hs : s.status = .playing) :
    (processCollisions s (goods ++ c :: rest)).lives = 0 ∧
    (processCollisions s (goods ++ c :: rest)).status = .gameOver ∧
    (processCollisions s (goods ++ c :: rest)).recordedGames = s.recordedGames + 1 := by
  induction goods generalizing s with
  | nil =>
    rw [List.nil_append, processCollisions]
    have hcg : ¬ c.object.type = .good := by rw [hc]; intro h; cases h
    rw [if_neg hcg]
    simp only [hi, hl, loseLife, finalizeGameOver, Bool.false_eq_true, if_false]
    norm_num
  | cons g goods' ih =>
    rw [List.cons_append,
      processCollisions_good_step s g (goods' ++ c :: rest) (hg g (by simp))]
    exact ih _ (fun g' hg' => hg g' (by simp [hg'])) hl hi hs

/-- Witness for C3: a concrete vulnerable one-life state hit by a single
harmful contact. -/
theorem C3_witness :
    (processCollisions
        ⟨0, 1, false, 0, .playing, 0, initialComboState, 0⟩
        ([] ++ ⟨{ freshEntity 1 with type := .bad }, .normal⟩ :: [])).lives = 0 ∧
    (processCollisions
        ⟨0, 1, false, 0, .playing, 0, initialComboState, 0⟩
        ([] ++ ⟨{ freshEntity 1 with type := .bad }, .normal⟩ :: [])).status = .gameOver ∧
    (processCollisions
        ⟨0, 1, false, 0, .playing, 0, initialComboState, 0⟩
        ([] ++ ⟨{ freshEntity 1 with type := .bad }, .normal⟩ :: [])).recordedGames = 0 + 1 :=
  C3_game_over_finalized_once ⟨0, 1, false, 0, .playing, 0, initialComboState, 0⟩
    [] ⟨{ freshEntity 1 with type := .bad }, .normal⟩ []
    (by intro g hg; cases hg) rfl rfl rfl rfl

/-! ## Claim C6: the neutral zone bars all collisions -/

/-- Every collision reported by `checkCollisions` with a real canvas height
involves an object whose visual box stays above the neutral-zone
boundary. -/
lemma checkCollisions_above_neutral (player : Player)
    (objects : List FallingObjectEntity) (h : ℚ) (hh : h ≠ 0)
    (c : DetectedCollision) (hc : c ∈ checkCollisions player objects (some h)) :
    ¬ (c.object.y + c.object.height > h - NEUTRAL_ZONE_HEIGHT) := by
  simp only [checkCollisions, List.mem_filterMap] at hc
  obtain ⟨obj, hmem, hf⟩ := hc
  split at hf
  · cases hf
  · split at hf
    · cases hf
    · next hn =>
      split at hf
      · rw [Option.some.injEq] at hf
        rw [← hf]
        simp only [inNeutralZone, neutralZoneStart, if_neg hh] at hn
        exact hn
      · cases hf

/-- Claim C6: a falling object whose visual box extends below the
neutral-zone boundary (canvas height minus the neutral-zone height) is
never reported by `checkCollisions`, regardless of any geometric overlap
with the catch zone. -/
theorem C6_neutral_zone_no_collision (player : Player)
    (objects : List FallingObjectEntity) (h : ℚ) (obj : FallingObjectEntity)
    (hh : h ≠ 0) (hobj : obj.y + obj.height > h - NEUTRAL_ZONE_HEIGHT) :
    ∀ c ∈ checkCollisions player objects (some h), c.object ≠ obj := by
  intro c hc heq
  exact checkCollisions_above_neutral player objects h hh c hc (by rw [heq]; exact hobj)

/-- Witness for C6 on a concrete 711-pixel canvas: the object at y = 640
sits in the neutral zone, so the one reported collision (the catchable
object at y = 600) is not it. -/
theorem C6_witness :
    (⟨{ freshEntity 2 with x := 160, y := 600, active := true },
        CollisionType.perfect⟩ : DetectedCollision).object ≠
      { freshEntity 1 with x := 160, y := 640, active := true } :=
  C6_neutral_zone_no_collision
    ⟨150, 591, 100, 100, ⟨100, 100, 0, 0⟩⟩
    [{ freshEntity 1 with x := 160, y := 640, active := true },
      { freshEntity 2 with x := 160, y := 600, active := true }]
    711 { freshEntity 1 with x := 160, y := 640, active := true }
    (by norm_num) (by norm_num [freshEntity, DEFAULT_HEIGHT, NEUTRAL_ZONE_HEIGHT])
    ⟨{ freshEntity 2 with x := 160, y := 600, active := true }, CollisionType.perfect⟩
    (by
      norm_num [checkCollisions, inNeutralZone, neutralZoneStart, checkAABBCollision,
        getCatchZone, getPerfectZone, getPlayerHitbox, freshEntity, DEFAULT_WIDTH,
        DEFAULT_HEIGHT, CATCH_ZONE_PADDING, PERFECT_ZONE_SIZE, NEUTRAL_ZONE_HEIGHT,
        List.filterMap])

/-! ## Claim C7: grace period and guaranteed-good injection -/

/-- During the grace period every spawn decision is `'good'`. -/
lemma determineItemType_grace (elapsedTime : ℚ) (spawnsSinceGood : ℕ)
    (badItemRatio r : ℚ) (h : elapsedTime < SPAWN_CONFIG.gracePeriodStart) :
    determineItemType elapsedTime spawnsSinceGood badItemRatio r = .good := by
  rw [determineItemType, if_pos h]

/-- Once the counter reaches the guarantee threshold the decision is
forced `'good'`. -/
lemma determineItemType_guarantee (elapsedTime : ℚ) (spawnsSinceGood : ℕ)
    (badItemRatio r : ℚ)
    (h : SPAWN_CONFIG.guaranteedGoodEvery ≤ spawnsSinceGood) :
    determineItemType elapsedTime spawnsSinceGood badItemRatio r = .good := by
  rw [determineItemType]
  split_ifs with h1 h2 h3 <;> first | rfl | exact absurd h h2

/-- A `'bad'` decision can only happen below the guarantee threshold. -/
lemma bad_decision_below_threshold (elapsedTime : ℚ) (spawnsSinceGood : ℕ)
    (badItemRatio r : ℚ)
    (h : determineItemType elapsedTime spawnsSinceGood badItemRatio r = .bad) :
    spawnsSinceGood < SPAWN_CONFIG.guaranteedGoodEvery := by
  by_contra hge
  push_neg at hge
  rw [determineItemType_guarantee elapsedTime spawnsSinceGood badItemRatio r hge] at h
  cases h

/-- A run of `k + 1` consecutive `'bad'` spawn decisions starting at
counter `c` forces `c + (k + 1)` to stay within the guarantee threshold. -/
lemma spawnTypes_bad_run :
    ∀ (k : ℕ) (inputs : List SpawnInput) (c : ℕ),
      List.replicate (k + 1) ItemType.bad <+: spawnTypes c inputs →
      c + (k + 1) ≤ SPAWN_CONFIG.guaranteedGoodEvery := by
  intro k
  induction k with
  | zero =>
    intro inputs c hp
    cases inputs with
    | nil => exact absurd hp.length_le (by simp [spawnTypes])
    | cons i rest =>
      rw [spawnTypes, List.replicate_succ, List.replicate_zero] at hp
      rw [List.cons_prefix_cons] at hp
      have hbad := hp.1.symm
      have := bad_decision_below_threshold i.elapsedTime c i.badItemRatio i.r hbad
      omega
  | succ k ih =>
    intro inputs c hp
    cases inputs with
    | nil => exact absurd hp.length_le (by simp [spawnTypes])
    | cons i rest =>
      rw [spawnTypes, List.replicate_succ, List.cons_prefix_cons] at hp
      obtain ⟨hbad, hrest⟩ := hp
      have hlt := bad_decision_below_threshold i.elapsedTime c i.badItemRatio i.r hbad.symm
      have hstep : stepSpawnCounter c
          (determineItemType i.elapsedTime c i.badItemRatio i.r) = c + 1 := by
        rw [← hbad]; rfl
      rw [hstep] at hrest
      have := ih rest (c + 1) hrest
      omega

/-- The `spawnTypes` distributes over input concatenation, with the counter
threaded through. -/
lemma spawnTypes_append (l1 : List SpawnInput) :
    ∀ (c : ℕ) (l2 : List SpawnInput),
      spawnTypes c (l1 ++ l2) =
        spawnTypes c l1 ++ spawnTypes (spawnCounterAfter c l1) l2 := by
  induction l1 with
  | nil => intro c l2; rfl
  | cons i rest ih =>
    intro c l2
    rw [List.cons_append, spawnTypes, spawnTypes, ih, spawnCounterAfter]
    rfl

/-- The `spawnTypes` produces one decision per input. -/
lemma spawnTypes_length (l : List SpawnInput) :
    ∀ c : ℕ, (spawnTypes c l).length = l.length := by
  induction l with
  | nil => intro c; rfl
  | cons i rest ih => intro c; rw [spawnTypes, List.length_cons, List.length_cons, ih]

/-- Claim C7: spawn decisions during the grace period are always
beneficial; a counter at the guarantee threshold forces a beneficial item;
and consequently no run of spawn decisions ever contains more than
`guaranteedGoodEvery` consecutive harmful items. -/
theorem C7_grace_and_guarantee :
    (∀ (elapsedTime : ℚ) (spawnsSinceGood : ℕ) (badItemRatio r : ℚ),
      elapsedTime < SPAWN_CONFIG.gracePeriodStart →
      determineItemType elapsedTime spawnsSinceGood badItemRatio r = .good) ∧
    (∀ (elapsedTime : ℚ) (spawnsSinceGood : ℕ) (badItemRatio r : ℚ),
      SPAWN_CONFIG.guaranteedGoodEvery ≤ spawnsSinceGood →
      determineItemType elapsedTime spawnsSinceGood badItemRatio r = .good) ∧
    (∀ inputs : List SpawnInput,
      ¬ List.replicate (SPAWN_CONFIG.guaranteedGoodEvery + 1) ItemType.bad <:+:
          spawnTypes 0 inputs) := by
  refine ⟨determineItemType_grace, determineItemType_guarantee, ?_⟩
  intro inputs hinf
  obtain ⟨s, t, hL⟩ := hinf
  have hslen : s.length ≤ inputs.length := by
    have := congrArg List.length hL
    simp only [List.length_append, spawnTypes_length] at this
    omega
  have hsplit := List.take_append_drop s.length inputs
  have hL2 : spawnTypes 0 inputs =
      spawnTypes 0 (inputs.take s.length) ++
        spawnTypes (spawnCounterAfter 0 (inputs.take s.length)) (inputs.drop s.length) := by
    conv_lhs => rw [← hsplit]
    exact spawnTypes_append _ 0 _
  rw [hL2] at hL
  rw [List.append_assoc] at hL
  have hlen : s.length = (spawnTypes 0 (inputs.take s.length)).length := by
    rw [spawnTypes_length, List.length_take]
    omega
  have htail :=
    (List.append_inj hL.symm hlen.symm).2
  have hpre : List.replicate (SPAWN_CONFIG.guaranteedGoodEvery + 1) ItemType.bad <+:
      spawnTypes (spawnCounterAfter 0 (inputs.take s.length)) (inputs.drop s.length) :=
    ⟨t, htail.symm⟩
  have := spawnTypes_bad_run SPAWN_CONFIG.guaranteedGoodEvery _ _ hpre
  omega

/-- Witness for C7 at concrete spawn decisions. -/
theorem C7_witness :
    determineItemType 100 3 (1/2) (1/4) = .good ∧
    determineItemType 2000 7 (1/2) (1/4) = .good :=
  ⟨C7_grace_and_guarantee.1 100 3 (1/2) (1/4) (by norm_num [SPAWN_CONFIG]),
    C7_grace_and_guarantee.2.1 2000 7 (1/2) (1/4) (by norm_num [SPAWN_CONFIG])⟩

/-! ## Helper lemmas: difficulty curve -/

/-- The `calculateDifficulty`, projected onto its fields. -/
lemma calculateDifficulty_eq (s : ℚ) :
    calculateDifficulty s =
      ⟨levelOf s,
        lerp DIFFICULTY_CONFIG.initial.spawnInterval DIFFICULTY_CONFIG.max.spawnInterval (easedOf s),
        lerp DIFFICULTY_CONFIG.initial.fallSpeed DIFFICULTY_CONFIG.max.fallSpeed (easedOf s),
        lerp DIFFICULTY_CONFIG.initial.badItemRatio DIFFICULTY_CONFIG.max.badItemRatio (easedOf s)⟩ :=
  rfl

/-- The blended linear/quadratic easing is monotone on the non-negative
axis. -/
lemma difficultyEasing_mono {a b : ℚ} (ha : 0 ≤ a) (hab : a ≤ b) :
    difficultyEasing a ≤ difficultyEasing b := by
  unfold difficultyEasing
  nlinarith

/-- The blended linear/quadratic easing maps `[0, 1]` into `[0, 1]`. -/
lemma difficultyEasing_bounds {t : ℚ} (h0 : 0 ≤ t) (h1 : t ≤ 1) :
    0 ≤ difficultyEasing t ∧ difficultyEasing t ≤ 1 := by
  unfold difficultyEasing
  constructor <;> nlinarith

/-- The clamped level is monotone in the score. -/
lemma levelOf_mono {s1 s2 : ℚ} (h : s1 ≤ s2) : levelOf s1 ≤ levelOf s2 := by
  unfold levelOf
  have hd : s1 / DIFFICULTY_CONFIG.scorePerLevel ≤ s2 / DIFFICULTY_CONFIG.scorePerLevel := by
    simp only [DIFFICULTY_CONFIG]
    linarith
  exact min_le_min (Int.floor_le_floor hd) (le_refl _)

/-- For non-negative scores the clamped level lies in `[0, maxLevel]`. -/
lemma levelOf_range {s : ℚ} (h : 0 ≤ s) :
    0 ≤ levelOf s ∧ levelOf s ≤ DIFFICULTY_CONFIG.maxLevel := by
  constructor
  · refine le_min ?_ (by norm_num [DIFFICULTY_CONFIG])
    rw [Int.le_floor]
    have : (0:ℚ) ≤ s / DIFFICULTY_CONFIG.scorePerLevel := by
      simp only [DIFFICULTY_CONFIG]
      positivity
    simpa using this
  · exact min_le_right _ _

/-- The eased progress is monotone for non-negative scores. -/
lemma easedOf_mono {s1 s2 : ℚ} (h0 : 0 ≤ s1) (h : s1 ≤ s2) :
    easedOf s1 ≤ easedOf s2 := by
  unfold easedOf
  have hl := levelOf_mono h
  have hr := levelOf_range h0
  apply difficultyEasing_mono
  · have : (0:ℚ) ≤ (levelOf s1 : ℚ) := by exact_mod_cast hr.1
    simp only [DIFFICULTY_CONFIG]
    positivity
  · have : ((levelOf s1 : ℚ)) ≤ (levelOf s2 : ℚ) := by exact_mod_cast hl
    simp only [DIFFICULTY_CONFIG]
    linarith

/-- The eased progress lies in `[0, 1]` for non-negative scores. -/
lemma easedOf_bounds {s : ℚ} (h : 0 ≤ s) : 0 ≤ easedOf s ∧ easedOf s ≤ 1 := by
  unfold easedOf
  obtain ⟨h1, h2⟩ := levelOf_range h
  have c1 : (0:ℚ) ≤ (levelOf s : ℚ) := by exact_mod_cast h1
  have c2 : (levelOf s : ℚ) ≤ (DIFFICULTY_CONFIG.maxLevel : ℚ) := by exact_mod_cast h2
  apply difficultyEasing_bounds
  · simp only [DIFFICULTY_CONFIG] at c1 c2 ⊢
    positivity
  · simp only [DIFFICULTY_CONFIG] at c1 c2 ⊢
    rw [div_le_one (by norm_num)]
    exact_mod_cast c2

/-- At or beyond `scorePerLevel * maxLevel` points, the eased progress
saturates at 1. -/
lemma easedOf_saturated {s : ℚ}
    (h : DIFFICULTY_CONFIG.scorePerLevel * (DIFFICULTY_CONFIG.maxLevel : ℚ) ≤ s) :
    easedOf s = 1 := by
  have hfloor : DIFFICULTY_CONFIG.maxLevel ≤ Int.floor (s / DIFFICULTY_CONFIG.scorePerLevel) := by
    rw [Int.le_floor]
    simp only [DIFFICULTY_CONFIG] at h ⊢
    push_cast at h ⊢
    rw [le_div_iff₀ (by norm_num)]
    linarith
  unfold easedOf levelOf
  rw [min_eq_right hfloor]
  norm_num [difficultyEasing, DIFFICULTY_CONFIG]

/-! ## Claim C4: difficulty is monotone and clamped -/

/-- Claim C4: `calculateDifficulty` is monotone over the game's score
domain — as the score grows the spawn interval never increases while fall
speed and bad-item ratio never decrease; the level is
`floor(score / scorePerLevel)` clamped to `maxLevel`; and from
`scorePerLevel * maxLevel` points onward all three parameters sit at their
configured maxima. -/
theorem C4_difficulty_monotone_clamped (s1 s2 : ℚ) (h0 : 0 ≤ s1) (h : s1 ≤ s2) :
    (calculateDifficulty s2).spawnInterval ≤ (calculateDifficulty s1).spawnInterval ∧
    (calculateDifficulty s1).fallSpeed ≤ (calculateDifficulty s2).fallSpeed ∧
    (calculateDifficulty s1).badItemRatio ≤ (calculateDifficulty s2).badItemRatio ∧
    (∀ s : ℚ, (calculateDifficulty s).level =
      min (Int.floor (s / DIFFICULTY_CONFIG.scorePerLevel)) DIFFICULTY_CONFIG.maxLevel) ∧
    (∀ s : ℚ, DIFFICULTY_CONFIG.scorePerLevel * (DIFFICULTY_CONFIG.maxLevel : ℚ) ≤ s →
      (calculateDifficulty s).spawnInterval = DIFFICULTY_CONFIG.max.spawnInterval ∧
      (calculateDifficulty s).fallSpeed = DIFFICULTY_CONFIG.max.fallSpeed ∧
      (calculateDifficulty s).badItemRatio = DIFFICULTY_CONFIG.max.badItemRatio) := by
  have hm := easedOf_mono h0 h
  refine ⟨?_, ?_, ?_, fun s => rfl, ?_⟩
  · simp only [calculateDifficulty_eq, lerp, DIFFICULTY_CONFIG]
    linarith
  · simp only [calculateDifficulty_eq, lerp, DIFFICULTY_CONFIG]
    linarith
  · simp only [calculateDifficulty_eq, lerp, DIFFICULTY_CONFIG]
    linarith
  · intro s hs
    have hsat := easedOf_saturated hs
    simp only [calculateDifficulty_eq, lerp, hsat]
    norm_num

/-- Witness for C4 at the concrete scores 0 and 100. -/
theorem C4_witness :
    (calculateDifficulty 100).spawnInterval ≤ (calculateDifficulty 0).spawnInterval :=
  (C4_difficulty_monotone_clamped 0 100 (by norm_num) (by norm_num)).1

/-! ## Claim C9: easing-function shape -/

/-- Counterexample to C9 as stated: the blended linear/quadratic easing of
the current revision is not concave — at the midpoint of 0 and 1 it lies
strictly below the chord. -/
theorem C9_counterexample :
    difficultyEasing ((0 + 1) / 2) < (difficultyEasing 0 + difficultyEasing 1) / 2 := by
  norm_num [difficultyEasing]

/-- The argument of the logarithm in `logarithmicEasing` is positive for
non-negative inputs. -/
lemma logarithmicEasing_arg_pos {t : ℝ} (ht : 0 ≤ t) :
    0 < 1 + t * (Real.exp 1 - 1) := by
  have he : (1:ℝ) + 1 ≤ Real.exp 1 := by
    have := Real.add_one_le_exp (1:ℝ)
    linarith
  nlinarith

/-- The `logarithmicEasing` is monotone on the non-negative axis. -/
lemma logarithmicEasing_mono {a b : ℝ} (ha : 0 ≤ a) (hab : a ≤ b) :
    logarithmicEasing a ≤ logarithmicEasing b := by
  have he : (1:ℝ) + 1 ≤ Real.exp 1 := by
    have := Real.add_one_le_exp (1:ℝ)
    linarith
  unfold logarithmicEasing
  apply Real.log_le_log (logarithmicEasing_arg_pos ha)
  nlinarith

/-- Endpoint: `logarithmicEasing 0 = 0`. -/
lemma logarithmicEasing_zero : logarithmicEasing 0 = 0 := by
  simp [logarithmicEasing]

/-- Endpoint: `logarithmicEasing 1 = 1`. -/
lemma logarithmicEasing_one : logarithmicEasing 1 = 1 := by
  have harg : (1:ℝ) + 1 * (Real.exp 1 - 1) = Real.exp 1 := by ring
  rw [logarithmicEasing, harg, Real.log_exp]

/-- The `logarithmicEasing` is midpoint-concave on the non-negative axis. -/
lemma logarithmicEasing_concave {a b : ℝ} (ha : 0 ≤ a) (hb : 0 ≤ b) :
    (logarithmicEasing a + logarithmicEasing b) / 2 ≤
      logarithmicEasing ((a + b) / 2) := by
  have hx : 0 < 1 + a * (Real.exp 1 - 1) := logarithmicEasing_arg_pos ha
  have hy : 0 < 1 + b * (Real.exp 1 - 1) := logarithmicEasing_arg_pos hb
  set x := 1 + a * (Real.exp 1 - 1) with hxdef
  set y := 1 + b * (Real.exp 1 - 1) with hydef
  have hxy : x * y ≤ ((x + y) / 2) ^ 2 := by nlinarith [sq_nonneg (x - y)]
  have h1 : Real.log x + Real.log y = Real.log (x * y) :=
    (Real.log_mul (ne_of_gt hx) (ne_of_gt hy)).symm
  have h2 : Real.log (x * y) ≤ Real.log (((x + y) / 2) ^ 2) :=
    Real.log_le_log (by positivity) hxy
  have h3 : Real.log (((x + y) / 2) ^ 2) = 2 * Real.log ((x + y) / 2) := by
    rw [Real.log_pow]
    norm_num
  have hmid : 1 + (a + b) / 2 * (Real.exp 1 - 1) = (x + y) / 2 := by
    rw [hxdef, hydef]; ring
  unfold logarithmicEasing
  rw [hmid]
  linarith

/-- Amended C9: both easing functions are monotonically increasing and map
`[0, 1]` onto `[0, 1]` with fixed endpoints 0 and 1; the earlier revision's
`logarithmicEasing` is (midpoint-)concave as the claim states, but the
current revision's `difficultyEasing` is (midpoint-)convex — strictly
below its chords — rather than concave. -/
theorem C9_easing_shape :
    (∀ a b : ℝ, 0 ≤ a → a ≤ b → logarithmicEasing a ≤ logarithmicEasing b) ∧
    logarithmicEasing 0 = 0 ∧
    logarithmicEasing 1 = 1 ∧
    (∀ t : ℝ, 0 ≤ t → t ≤ 1 → 0 ≤ logarithmicEasing t ∧ logarithmicEasing t ≤ 1) ∧
    (∀ a b : ℝ, 0 ≤ a → 0 ≤ b →
      (logarithmicEasing a + logarithmicEasing b) / 2 ≤ logarithmicEasing ((a + b) / 2)) ∧
    (∀ a b : ℚ, 0 ≤ a → a ≤ b → difficultyEasing a ≤ difficultyEasing b) ∧
    difficultyEasing 0 = 0 ∧
    difficultyEasing 1 = 1 ∧
    (∀ t : ℚ, 0 ≤ t → t ≤ 1 → 0 ≤ difficultyEasing t ∧ difficultyEasing t ≤ 1) ∧
    (∀ a b : ℚ, difficultyEasing ((a + b) / 2) ≤
      (difficultyEasing a + difficultyEasing b) / 2) := by
  refine ⟨fun a b ha hab => logarithmicEasing_mono ha hab,
    logarithmicEasing_zero, logarithmicEasing_one, ?_,
    fun a b ha hb => logarithmicEasing_concave ha hb,
    fun a b ha hab => difficultyEasing_mono ha hab,
    by norm_num [difficultyEasing], by norm_num [difficultyEasing],
    fun t h0 h1 => difficultyEasing_bounds h0 h1, ?_⟩
  · intro t h0 h1
    constructor
    · rw [← logarithmicEasing_zero]
      exact logarithmicEasing_mono (le_refl 0) h0
    · rw [← logarithmicEasing_one]
      exact logarithmicEasing_mono h0 h1
  · intro a b
    unfold difficultyEasing
    nlinarith [sq_nonneg (a - b)]

/-- Witness for the amended C9 at concrete inputs 0 and 1. -/
theorem C9_witness :
    logarithmicEasing 0 ≤ logarithmicEasing 1 ∧
    difficultyEasing 0 ≤ difficultyEasing 1 :=
  ⟨C9_easing_shape.1 0 1 (le_refl 0) zero_le_one,
    C9_easing_shape.2.2.2.2.2.1 0 1 (le_refl 0) zero_le_one⟩

end Catcher
